import Mathlib

/-!
Verification of the link-parsing and auto-fill pipeline of the StealthApp
mobile client.  The repository contains two app variants:

* the "save" form (`New Save Screen`, with `handleParseLink`) consuming the
  richer `ParsedLink` of `mobile/types/index.ts`, and
* the "idea" form (`mobile/app/idea/new.tsx`, with `parseLink`) consuming the
  leaner `ParsedLink` of `mobile/services/api.ts`.

The definitions below are shallow embeddings of those source functions:
JavaScript truthiness is modelled explicitly, nullable fields become `Option`,
JS numbers become `ℚ`, and the asynchronous request helper becomes a function
from an abstract HTTP response to `Except`.
-/

/-! ### Generic string helpers (models of JS string primitives) -/

/-- Does the first list start with the second (character-wise)? -/
def listStartsWith : List Char → List Char → Bool
  | _, [] => true
  | [], _ :: _ => false
  | a :: as, b :: bs => a == b && listStartsWith as bs

/-- Substring containment on character lists. -/
def containsL : List Char → List Char → Bool
  | [], pat => pat.isEmpty
  | a :: as, pat => listStartsWith (a :: as) pat || containsL as pat

/-- Substring containment on strings (models JS `String.prototype.includes`). -/
def strContains (s pat : String) : Bool :=
  containsL s.toList pat.toList

/-- Is the character in the JS `String.prototype.trim` whitespace set
(modelled for the common ASCII whitespace characters)? -/
def isJsWs (c : Char) : Bool :=
  c.toNat == 9 || c.toNat == 10 || c.toNat == 11 || c.toNat == 12 ||
    c.toNat == 13 || c.toNat == 32

/-- Models JS `String.prototype.trim`: strip whitespace from both ends. -/
def jsTrim (s : String) : String :=
  String.mk (((s.toList.dropWhile isJsWs).reverse.dropWhile isJsWs).reverse)

/-- Decimal digit character. -/
def digitChar (n : ℕ) : Char := Char.ofNat (48 + n)

/-- Decimal digits of a natural number, with fuel for structural recursion. -/
def natDigitsAux : ℕ → ℕ → List Char → List Char
  | 0, _, acc => acc
  | fuel + 1, n, acc =>
    if n < 10 then digitChar n :: acc
    else natDigitsAux fuel (n / 10) (digitChar (n % 10) :: acc)

/-- Decimal rendering of a natural number. -/
def natToStr (n : ℕ) : String := String.mk (natDigitsAux 30 n [])

/-- Left-pad a digit list with zeros to the given width. -/
def padZeros (l : List Char) (w : ℕ) : List Char :=
  List.replicate (w - l.length) '0' ++ l

/-- Models JS `Number.prototype.toFixed(5)` on an exact rational: the sign is
split off and the absolute value `a / b` is rounded to the nearest multiple
of `10 ^ (-5)`, ties away from zero (the ECMAScript "larger n" rule), then
rendered with exactly five fractional digits.  The rounded scaled value
`⌊a / b * 100000 + 1 / 2⌋` is computed as the integer floor division
`(2 * a * 100000 + b) / (2 * b)`. -/
def toFixed5 (q : ℚ) : String :=
  let sign := if q.num < 0 then "-" else ""
  let n := (2 * q.num.natAbs * 100000 + q.den) / (2 * q.den)
  sign ++ natToStr (n / 100000) ++ "." ++
    String.mk (padZeros (natDigitsAux 30 (n % 100000) []) 5)

/-! ### Model of the WHATWG `new URL(input)` constructor

`isValidUrl` in `mobile/app/idea/new.tsx` is
`try { new URL(string); return true } catch { return false }`.
The model below captures the constructor's success condition at the level the
claims need: the input (after stripping tab/newline characters and trimming
C0-control/space) must begin with an ASCII-alpha-led scheme followed by `:`;
for the special network schemes a non-empty host without spaces must follow;
other (opaque-path) schemes accept the remainder as-is. -/

/-- ASCII letter test. -/
def isAsciiAlpha (c : Char) : Bool :=
  ('a' ≤ c && c ≤ 'z') || ('A' ≤ c && c ≤ 'Z')

/-- Characters allowed in a URL scheme after the first. -/
def isSchemeChar (c : Char) : Bool :=
  isAsciiAlpha c || ('0' ≤ c && c ≤ '9') || c == '+' || c == '-' || c == '.'

/-- Consume scheme characters until `:`; returns the scheme and the rest. -/
def splitSchemeAux : List Char → List Char → Option (List Char × List Char)
  | _, [] => none
  | acc, ':' :: rest => some (acc.reverse, rest)
  | acc, c :: rest =>
    if isSchemeChar c then splitSchemeAux (c :: acc) rest else none

/-- Split a URL into scheme and remainder; the scheme must start with an
ASCII letter. -/
def splitScheme : List Char → Option (List Char × List Char)
  | [] => none
  | c :: rest => if isAsciiAlpha c then splitSchemeAux [c] rest else none

/-- WHATWG input preprocessing: remove tab/LF/CR everywhere and trim
C0-control-or-space from both ends. -/
def stripControl (s : List Char) : List Char :=
  let s1 := s.filter (fun c => !(c == '\t' || c == '\n' || c == '\r'))
  ((s1.dropWhile (fun c => decide (c.toNat ≤ 32))).reverse.dropWhile
      (fun c => decide (c.toNat ≤ 32))).reverse

/-- The special network schemes that require a host. -/
def isSpecialScheme (s : String) : Bool :=
  s == "http" || s == "https" || s == "ws" || s == "wss" || s == "ftp"

/-- Models `isValidUrl` from `mobile/app/idea/new.tsx` (success of
`new URL(string)` with no base). -/
def isValidUrl (s : String) : Bool :=
  match splitScheme (stripControl s.toList) with
  | none => false
  | some (scheme, rest) =>
    let sl := String.mk (scheme.map Char.toLower)
    if sl == "file" then true
    else if isSpecialScheme sl then
      let afterSlashes := rest.dropWhile (fun c => c == '/' || c == '\\')
      let host := afterSlashes.takeWhile
        (fun c => !(c == '/' || c == '?' || c == '#' || c == '\\'))
      !host.isEmpty && host.all (fun c => !(c == ' '))
    else true

/-! ### Data model (transcribed from `mobile/types/index.ts` and
`mobile/services/api.ts`) -/

/-- `SaveSourceType` from `mobile/types/index.ts`. -/
inductive SourceType where
  | manual
  | google_maps
  | instagram
  | tiktok
  | eventbrite
  | reddit
  | other_url
deriving DecidableEq

/-- `SaveCategory` from `mobile/types/index.ts`. -/
inductive SaveCategory where
  | restaurant
  | bar
  | cafe
  | concert
  | event
  | activity
  | trip
  | other
deriving DecidableEq

/-- `ParsedLink` from `mobile/types/index.ts` (the saves-variant contract):
`success` and `source_type` are required, every other field is
`... | null`. -/
structure ParsedLink where
  success : Bool
  source_type : SourceType
  title : Option String
  description : Option String
  category : Option SaveCategory
  location_lat : Option ℚ
  location_lng : Option ℚ
  location_name : Option String
  address : Option String
  image_url : Option String
  event_date : Option String
  error : Option String
deriving DecidableEq

/-- `ParsedLink` from `mobile/services/api.ts` (the ideas-variant contract):
`success`, `images` and `source_link` are required, `title` and
`location_hint` are optional; there is no `source_type` field. -/
structure ParsedLinkIdeas where
  success : Bool
  title : Option String
  images : List String
  location_hint : Option String
  source_link : String
deriving DecidableEq

/-- The draft state of the save form (`SaveCreate` restricted to the fields
`handleParseLink` reads or writes; `tags` and `visibility` are never touched
by the merge and are omitted). -/
structure SaveCreate where
  title : String
  description : Option String
  category : Option SaveCategory
  location_name : Option String
  address : Option String
  location_lat : Option ℚ
  location_lng : Option ℚ
  source_url : Option String
  source_type : Option SourceType
  image_url : Option String
  event_date : Option String
deriving DecidableEq

/-- The draft state of the idea form (`title`, `locationName`, `images`,
`linkParsed` — the pieces of state `parseLink` reads or writes). -/
structure IdeaDraft where
  title : String
  locationName : String
  images : List String
  linkParsed : Bool
deriving DecidableEq

/-! ### JavaScript truthiness helpers

In the source, field merging is written with `||` and `&&` on values of type
`string | null`, `number | null`, etc.  JS truthiness: `null`, `undefined`,
`""` and `0` are falsy; everything else relevant here is truthy. -/

/-- `a || b` where `a : string | null` and the result must be a string
(`b` is a plain string). -/
def jsOrStr (a : Option String) (b : String) : String :=
  match a with
  | some s => if s = "" then b else s
  | none => b

/-- `a || b` where both operands are `string | null | undefined`. -/
def jsOrOpt (a b : Option String) : Option String :=
  match a with
  | some s => if s = "" then b else some s
  | none => b

/-- `a || b` on nullable JS numbers: `0` and `null` are falsy. -/
def jsOrNum (a b : Option ℚ) : Option ℚ :=
  match a with
  | some q => if q = 0 then b else some q
  | none => b

/-- `a || b` on nullable category values: every `SaveCategory` is a non-empty
string in the source, hence truthy, so a non-null `a` always wins. -/
def jsOrCat (a b : Option SaveCategory) : Option SaveCategory :=
  match a with
  | some c => some c
  | none => b

/-- JS falsiness of a `string | null | undefined` value. -/
def jsFalsyOptS : Option String → Bool
  | some s => s == ""
  | none => true

/-! ### The save form (`New Save Screen`, `handleParseLink`) -/

/-- The coordinate fallback label synthesized by `handleParseLink`. -/
def coordFallback (la ln : ℚ) : String :=
  "📍 " ++ toFixed5 la ++ ", " ++ toFixed5 ln

/-- The `setFormData` updater inside `handleParseLink`:
`locationValue = result.location_name || result.address || prev.location_name`,
then the coordinate fallback when that is falsy and both coordinates are
truthy, then the field-by-field `result.x || prev.x` merge. -/
def mergeSave (link : String) (prev : SaveCreate) (r : ParsedLink) : SaveCreate :=
  let lv0 := jsOrOpt r.location_name (jsOrOpt r.address prev.location_name)
  let lv :=
    if jsFalsyOptS lv0 then
      match r.location_lat, r.location_lng with
      | some la, some ln =>
        if la ≠ 0 ∧ ln ≠ 0 then some (coordFallback la ln) else lv0
      | _, _ => lv0
    else lv0
  { title := jsOrStr r.title prev.title
    description := jsOrOpt r.description prev.description
    category := jsOrCat r.category prev.category
    location_name := lv
    address := jsOrOpt r.address prev.address
    location_lat := jsOrNum r.location_lat prev.location_lat
    location_lng := jsOrNum r.location_lng prev.location_lng
    source_url := some link
    source_type := some r.source_type
    image_url := jsOrOpt r.image_url prev.image_url
    event_date := prev.event_date }

/-- The body of `handleParseLink` after the request settles: on a resolved
`ParsedLink` the draft is merged only when `result.success || result.title`
is truthy, and a "Note" alert is shown when `result.error` is truthy; on a
rejected request the draft is untouched and an "Error" alert shows
`error.message || 'Failed to parse link'`.  Returns the new draft and the
alert (title, message) if one is shown. -/
def handleParseLink (link : String) (prev : SaveCreate)
    (outcome : Except String ParsedLink) : SaveCreate × Option (String × String) :=
  match outcome with
  | Except.ok r =>
    let next := if r.success || !(jsFalsyOptS r.title) then mergeSave link prev r else prev
    let alert :=
      match r.error with
      | some e => if e = "" then none else some ("Note", e)
      | none => none
    (next, alert)
  | Except.error msg =>
    (prev, some ("Error", if msg = "" then "Failed to parse link" else msg))

/-- Does invoking `handleParseLink` reach the API call?  The source guard is
only `if (!linkToParse.trim()) return;` where
`linkToParse = url || linkInput`; the function never consults `isParsing`
(the parameter records that fact). -/
def savesHandleParseLinkIssues (_isParsing : Bool) (linkInput : String)
    (urlArg : Option String) : Bool :=
  !(jsTrim (jsOrStr urlArg linkInput) == "")

/-- The save form's Parse Link button:
`disabled={!linkInput.trim() || isParsing}`. -/
def savesParseButtonDisabled (linkInput : String) (isParsing : Bool) : Bool :=
  (jsTrim linkInput == "") || isParsing

/-! ### The idea form (`mobile/app/idea/new.tsx`, `parseLink`) -/

/-- The success branch of `parseLink`: on `result.success`, title and
location are merged only when the corresponding draft field is still empty,
`images` is overwritten whenever the result has any, and `linkParsed` is set.
On `success = false` nothing changes. -/
def ideaParseLinkApply (d : IdeaDraft) (r : ParsedLinkIdeas) : IdeaDraft :=
  if r.success then
    let d1 :=
      match r.title with
      | some t => if t ≠ "" ∧ d.title = "" then { d with title := t } else d
      | none => d
    let d2 := if 0 < r.images.length then { d1 with images := r.images } else d1
    let d3 :=
      match r.location_hint with
      | some h => if h ≠ "" ∧ d.locationName = "" then { d2 with locationName := h } else d2
      | none => d2
    { d3 with linkParsed := true }
  else d

/-- The entry guard of `parseLink`:
`if (!sourceLink || isParsing) return;` — the call issues a request iff the
link is non-empty and no parse is outstanding. -/
def ideaParseLinkIssues (sourceLink : String) (isParsing : Bool) : Bool :=
  !(sourceLink == "") && !isParsing

/-- The guard inside the idea form's debounced effect:
`if (sourceLink && !linkParsed && isValidUrl(sourceLink)) parseLink();`. -/
def autoParseFires (sourceLink : String) (linkParsed : Bool) : Bool :=
  !(sourceLink == "") && !linkParsed && isValidUrl sourceLink

/-! ### Debounce semantics of the idea form's auto-parse effect

The effect (dependency `[sourceLink]`) schedules a 500 ms timer on every edit
and its cleanup clears the previous timer.  An edit's timer therefore fires
iff the next edit comes strictly more than 500 ms later (a cleanup running at
exactly the deadline is modelled as clearing first) or the edit is the last.
Every `onChangeText` also resets `linkParsed` to `false`, so the guard
captured by each timer sees `linkParsed = false`; `isParsing` is `false`
while the user is still typing (no call has fired yet in the burst). -/

/-- One edit of the link field: timestamp in milliseconds and the new text. -/
structure Edit where
  t : ℕ
  value : String
deriving DecidableEq

/-- The guard evaluated when a debounce timer fires (effect guard plus the
`parseLink` entry guard, with `isParsing = false`). -/
def parseGuard (v : String) (lp : Bool) : Bool :=
  !(v == "") && !lp && isValidUrl v

/-- The extraction-call times produced by a burst of edits under the
debounced effect. -/
def debounceCalls : List Edit → List ℕ
  | [] => []
  | e1 :: rest =>
    match rest with
    | [] => if parseGuard e1.value false then [e1.t + 500] else []
    | e2 :: _ =>
      (if decide (e1.t + 500 < e2.t) && parseGuard e1.value false
        then [e1.t + 500] else []) ++ debounceCalls rest

/-- Each edit strictly follows the previous one by less than 500 ms. -/
def gapsOk : List Edit → Bool
  | [] => true
  | e1 :: rest =>
    match rest with
    | [] => true
    | e2 :: _ => decide (e1.t < e2.t) && decide (e2.t < e1.t + 500) && gapsOk rest

/-! ### The API request helper (`mobile/services/api.ts`, `request`) -/

/-- The JSON body of an HTTP response, as far as `request` inspects it:
only the optional `detail` field matters. -/
structure ErrorBody where
  detail : Option String
deriving DecidableEq

/-- An HTTP response as `request` sees it: a status code and the result of
trying to parse the body as JSON (`none` means the body is not valid JSON). -/
structure HttpResponse where
  status : ℕ
  jsonBody : Option ErrorBody
deriving DecidableEq

/-- Did the computation reject? -/
def isErr {α : Type} : Except String α → Bool
  | Except.error _ => true
  | Except.ok _ => false

/-- The rejection message (empty for a resolved computation). -/
def errMsg {α : Type} : Except String α → String
  | Except.error m => m
  | Except.ok _ => ""

/-- The `request` helper: `response.ok` is status 200–299; on a non-ok
response the body is parsed with `.catch(() => ({}))` and
`new Error(error.detail || 'Request failed: <status>')` is thrown; on an ok
response `response.json()` is returned, which itself rejects when the body is
not valid JSON. -/
def request (resp : HttpResponse) : Except String ErrorBody :=
  if 200 ≤ resp.status ∧ resp.status ≤ 299 then
    match resp.jsonBody with
    | some b => Except.ok b
    | none => Except.error "SyntaxError: unexpected end of JSON input"
  else
    match (match resp.jsonBody with | some b => b.detail | none => none) with
    | some d =>
      if d = "" then Except.error ("Request failed: " ++ natToStr resp.status)
      else Except.error d
    | none => Except.error ("Request failed: " ++ natToStr resp.status)

/-! ### The source classifier -/

/-- Hostname of a URL string: the segment after `://` up to `/`, `?` or `#`. -/
def afterSchemeSep : List Char → List Char
  | [] => []
  | ':' :: '/' :: '/' :: rest => rest
  | _ :: rest => afterSchemeSep rest

/-- Host extraction used by the classifier model. -/
def hostOf (url : String) : String :=
  String.mk ((afterSchemeSep url.toList).takeWhile
    (fun c => !(c == '/' || c == '?' || c == '#')))

/-- Modelled from the spec: the classifier itself is server-side (the client
only issues `POST .../parse-link`), so `classify` is transcribed from the
spec's fixed, ordered pattern table — hosts containing `maps.google` (or the
`goo.gl/maps` shortener) map to `google_maps`, `instagram.com` to
`instagram`, `tiktok.com` to `tiktok`, `eventbrite.*` to `eventbrite`,
`reddit.com` to `reddit`, and anything else to `other_url`; the first
matching rule wins. -/
def classify (url : String) : SourceType :=
  let host := hostOf url
  if strContains host "maps.google" || strContains url "goo.gl/maps" then
    SourceType.google_maps
  else if strContains host "instagram.com" then SourceType.instagram
  else if strContains host "tiktok.com" then SourceType.tiktok
  else if strContains host "eventbrite." then SourceType.eventbrite
  else if strContains host "reddit.com" then SourceType.reddit
  else SourceType.other_url

/-! ### Field tables of the two `ParsedLink` interfaces

For the shape claims the two TypeScript interfaces are transcribed as
field tables: each entry is the field name together with whether the field
is required (`true`) or optional/nullable (`false`). -/

/-- Fields of `ParsedLink` in `mobile/types/index.ts`, in declaration order. -/
def parsedLinkSavesFields : List (String × Bool) :=
  [("success", true), ("source_type", true), ("title", false),
   ("description", false), ("category", false), ("location_lat", false),
   ("location_lng", false), ("location_name", false), ("address", false),
   ("image_url", false), ("event_date", false), ("error", false)]

/-- Fields of `ParsedLink` in `mobile/services/api.ts`, in declaration
order. -/
def parsedLinkIdeasFields : List (String × Bool) :=
  [("success", true), ("title", false), ("images", true),
   ("location_hint", false), ("source_link", true)]

/-- The shape asserted by the spec for a `ParsedLink` interface: `success`
and `source_type` are required fields and every other field is
optional/nullable. -/
def parsedLinkShapeClaim (fields : List (String × Bool)) : Prop :=
  ("success", true) ∈ fields ∧ ("source_type", true) ∈ fields ∧
    ∀ p ∈ fields, p.1 ≠ "success" → p.1 ≠ "source_type" → p.2 = false

instance (fields : List (String × Bool)) : Decidable (parsedLinkShapeClaim fields) := by
  unfold parsedLinkShapeClaim
  infer_instance

/-! ## Claims -/

/-- Claim C10: in the idea-form variant, a parse that resolves with
`success = false` and a null title leaves the entire draft state unchanged —
no field among `title`, `images`, `locationName`, `linkParsed` is modified,
regardless of the other `ParsedLink` fields. -/
theorem c10_failed_parse_atomic (d : IdeaDraft) (r : ParsedLinkIdeas)
    (hs : r.success = false) (_ht : r.title = none) :
    ideaParseLinkApply d r = d := by
  simp [ideaParseLinkApply, hs]

/-- Witness for C10 at a concrete draft and a concrete failed result that
still carries non-null `images` and `location_hint`. -/
theorem c10_witness :
    ideaParseLinkApply ⟨"t", "loc", ["i"], false⟩
        ⟨false, none, ["img"], some "hint", "http://x"⟩
      = ⟨"t", "loc", ["i"], false⟩ :=
  c10_failed_parse_atomic _ _ rfl rfl

/-- Claim C9: in the save-form merge, a parsed coordinate equal to `0` is
treated as absent (JS truthiness): the coordinate fallback label is not
synthesized — the location field is just the
`location_name || address || prev.location_name` chain — and the draft keeps
its previous value of that coordinate. -/
theorem c9_zero_coordinate (link : String) (prev : SaveCreate) (r : ParsedLink)
    (h : r.location_lat = some 0 ∨ r.location_lng = some 0) :
    (mergeSave link prev r).location_name
        = jsOrOpt r.location_name (jsOrOpt r.address prev.location_name) ∧
      (r.location_lat = some 0 →
        (mergeSave link prev r).location_lat = prev.location_lat) ∧
      (r.location_lng = some 0 →
        (mergeSave link prev r).location_lng = prev.location_lng) := by
  refine ⟨?_, ?_, ?_⟩
  · simp only [mergeSave]
    rcases h with h | h
    · rw [h]
      cases r.location_lng <;> simp
    · rw [h]
      cases r.location_lat <;> simp
  · intro hl
    simp [mergeSave, hl, jsOrNum]
  · intro hl
    simp [mergeSave, hl, jsOrNum]

/-- Witness for C9: a result with `location_lat = 0` leaves the empty
location field untouched (no fallback label) and keeps the draft's previous
latitude. -/
theorem c9_witness :
    (mergeSave "http://example.com"
        ⟨"", some "", some SaveCategory.other, some "", none, some (mkRat 1 1),
          none, none, none, none, none⟩
        ⟨true, SourceType.other_url, none, none, none, some 0, some (mkRat 2 1),
          none, none, none, none, none⟩).location_name = some "" ∧
      (mergeSave "http://example.com"
        ⟨"", some "", some SaveCategory.other, some "", none, some (mkRat 1 1),
          none, none, none, none, none⟩
        ⟨true, SourceType.other_url, none, none, none, some 0, some (mkRat 2 1),
          none, none, none, none, none⟩).location_lat = some (mkRat 1 1) := by
  have h := c9_zero_coordinate "http://example.com"
      ⟨"", some "", some SaveCategory.other, some "", none, some (mkRat 1 1),
        none, none, none, none, none⟩
      ⟨true, SourceType.other_url, none, none, none, some 0, some (mkRat 2 1),
        none, none, none, none, none⟩
      (Or.inl rfl)
  refine ⟨?_, ?_⟩
  · rw [h.1]; decide
  · rw [h.2.1 rfl]

/-- Claim C8: for every syntactically valid URL whose hostname matches none
of the fixed host patterns, `classify` returns `other_url`.  (The classifier
is server-side; `classify` is modelled from the spec's pattern table.) -/
theorem c8_classify_no_match (url : String)
    (h1 : strContains (hostOf url) "maps.google" = false)
    (h2 : strContains url "goo.gl/maps" = false)
    (h3 : strContains (hostOf url) "instagram.com" = false)
    (h4 : strContains (hostOf url) "tiktok.com" = false)
    (h5 : strContains (hostOf url) "eventbrite." = false)
    (h6 : strContains (hostOf url) "reddit.com" = false) :
    classify url = SourceType.other_url := by
  simp [classify, h1, h2, h3, h4, h5, h6]

/-- Witness for C8 at a concrete URL with no matching host pattern. -/
theorem c8_witness : classify "https://example.com/page" = SourceType.other_url :=
  c8_classify_no_match "https://example.com/page" (by decide) (by decide)
    (by decide) (by decide) (by decide) (by decide)

/-- Helper: in the idea form, a successful result's title is merged only when
the parsed title is a non-empty string and the draft title is still empty. -/
theorem ideaApply_title (d : IdeaDraft) (p : ParsedLinkIdeas)
    (hs : p.success = true) :
    (ideaParseLinkApply d p).title
      = match p.title with
        | some t => if t ≠ "" ∧ d.title = "" then t else d.title
        | none => d.title := by
  simp only [ideaParseLinkApply, hs]
  cases p.title <;> cases p.location_hint <;> split_ifs <;>
    simp_all <;> split_ifs <;> simp_all

/-- Claim C1 (counterexample): in the save form, the merge is
`result.title || prev.title` — a draft whose title is already the non-empty
string "My Title" does NOT keep it; merging a successful `ParsedLink` with
title "Other" overwrites it. -/
theorem c1_counterexample :
    (handleParseLink "http://example.com"
        ⟨"My Title", some "", some SaveCategory.other, some "", none, none,
          none, none, none, none, none⟩
        (Except.ok ⟨true, SourceType.other_url, some "Other", none, none, none,
          none, none, none, none, none, none⟩)).1.title
      = "Other" := by decide

/-- Claim C1 (amended): the idea-form merge applies the parsed title only when
the draft title is still empty (a draft titled "My Title" keeps it; an empty
draft gets "Other"), while the save-form merge lets a non-empty parsed title
overwrite whatever the draft holds. -/
theorem c1_merge_policy_amended (d : IdeaDraft) (p : ParsedLinkIdeas)
    (prev : SaveCreate) (r : ParsedLink) (link : String)
    (hps : p.success = true) (hpt : p.title = some "Other")
    (hrt : r.title = some "Other") :
    (d.title = "My Title" → (ideaParseLinkApply d p).title = "My Title") ∧
      (d.title = "" → (ideaParseLinkApply d p).title = "Other") ∧
      (mergeSave link prev r).title = "Other" := by
  refine ⟨?_, ?_, ?_⟩
  · intro hd
    rw [ideaApply_title d p hps, hpt, hd]
    simp
  · intro hd
    rw [ideaApply_title d p hps, hpt, hd]
    simp
  · simp [mergeSave, hrt, jsOrStr]

/-- Witness for the amended C1 at a concrete draft pair and results. -/
theorem c1_witness :
    (ideaParseLinkApply ⟨"My Title", "", [], false⟩
        ⟨true, some "Other", [], none, "http://x"⟩).title = "My Title" ∧
      (mergeSave "http://example.com"
        ⟨"", some "", some SaveCategory.other, some "", none, none, none, none,
          none, none, none⟩
        ⟨true, SourceType.other_url, some "Other", none, none, none, none, none,
          none, none, none, none⟩).title = "Other" := by
  have h := c1_merge_policy_amended ⟨"My Title", "", [], false⟩
      ⟨true, some "Other", [], none, "http://x"⟩
      ⟨"", some "", some SaveCategory.other, some "", none, none, none, none,
        none, none, none⟩
      ⟨true, SourceType.other_url, some "Other", none, none, none, none, none,
        none, none, none, none⟩
      "http://example.com" rfl rfl rfl
  exact ⟨h.1 rfl, h.2.2⟩

/-- Claim C2 (counterexample): the ideas-variant `ParsedLink` interface
(`mobile/services/api.ts`) does not satisfy the asserted shape — it has no
`source_type` field at all (and its `images`/`source_link` are required). -/
theorem c2_counterexample : ¬ parsedLinkShapeClaim parsedLinkIdeasFields := by
  decide

/-- Claim C2 (amended): the saves-variant `ParsedLink` has `success` and
`source_type` required with every other field nullable, while the
ideas-variant has no `source_type` field and requires `images` and
`source_link`; only `success` is common to both contracts. -/
theorem c2_shapes_amended :
    parsedLinkShapeClaim parsedLinkSavesFields ∧
      (∀ p ∈ parsedLinkIdeasFields, p.1 ≠ "source_type") ∧
      ("images", true) ∈ parsedLinkIdeasFields ∧
      ("source_link", true) ∈ parsedLinkIdeasFields := by
  decide

/-- Claim C3 (counterexample): "non-null `location_lat`/`location_lng`" is not
enough for the fallback label.  With an empty draft: a successful result with
`location_lat = 0` (non-null) produces no fallback (truthiness), and a result
with `success = false` and no title is not merged at all — in both cases the
location field stays `""` instead of a marker-prefixed coordinate string. -/
theorem c3_counterexample :
    (handleParseLink "http://example.com"
        ⟨"", some "", some SaveCategory.other, some "", none, none, none, none,
          none, none, none⟩
        (Except.ok ⟨true, SourceType.other_url, none, none, none, some 0,
          some (mkRat (-74006) 1000), none, none, none, none, none⟩)).1.location_name
      = some "" ∧
    (handleParseLink "http://example.com"
        ⟨"", some "", some SaveCategory.other, some "", none, none, none, none,
          none, none, none⟩
        (Except.ok ⟨false, SourceType.google_maps, none, none, none,
          some (mkRat 407128 10000), some (mkRat (-74006) 1000), none, none,
          none, none, none⟩)).1.location_name
      = some "" := by decide

/-- Claim C3 (amended): when a merged result (`success = true`) carries
non-null, NONZERO coordinates and null `location_name`/`address`, merging
into a draft whose location is empty sets the location to the marker-prefixed
fallback built from both coordinates at 5 decimal places. -/
theorem c3_coordinate_fallback_amended (link : String) (prev : SaveCreate)
    (r : ParsedLink) (la ln : ℚ)
    (hs : r.success = true)
    (hn : r.location_name = none) (ha : r.address = none)
    (hla : r.location_lat = some la) (hln : r.location_lng = some ln)
    (hla0 : la ≠ 0) (hln0 : ln ≠ 0)
    (hprev : prev.location_name = none ∨ prev.location_name = some "") :
    (handleParseLink link prev (Except.ok r)).1.location_name
      = some (coordFallback la ln) := by
  have hgate : (r.success || !(jsFalsyOptS r.title)) = true := by
    rw [hs]; exact Bool.true_or _
  simp only [handleParseLink, hgate, if_true]
  simp only [mergeSave, hn, ha, hla, hln, jsOrOpt]
  rcases hprev with h | h <;> rw [h] <;> simp [jsFalsyOptS, hla0, hln0]

/-- Witness for the amended C3: the spec's own example coordinates produce
"📍 40.71280, -74.00600". -/
theorem c3_witness :
    (handleParseLink "https://maps.google.com/x"
        ⟨"", some "", some SaveCategory.other, some "", none, none, none, none,
          none, none, none⟩
        (Except.ok ⟨true, SourceType.google_maps, none, none, none,
          some (mkRat 407128 10000), some (mkRat (-74006) 1000), none, none,
          none, none, none⟩)).1.location_name
      = some "📍 40.71280, -74.00600" := by
  rw [c3_coordinate_fallback_amended _ _ _ _ _ rfl rfl rfl rfl rfl
    (by decide) (by decide) (Or.inr rfl)]
  decide

/-- Claim C4 (counterexample): "not a url" fails the URL syntax check, yet
the save form's Parse Link action is enabled (the button only requires a
non-blank input) and `handleParseLink` issues the request — validity is never
checked on that path. -/
theorem c4_counterexample :
    isValidUrl "not a url" = false ∧
      savesParseButtonDisabled "not a url" false = false ∧
      savesHandleParseLinkIssues false "not a url" none = true := by decide

/-- Claim C4 (amended): only the idea form's debounced auto-parse effect
guards on URL validity — it never fires for a syntactically invalid URL; the
save form's manual Parse Link action checks only that the input is non-blank
and does issue a request for an invalid URL. -/
theorem c4_auto_parse_validates_amended (s : String) (lp : Bool)
    (h : autoParseFires s lp = true) : isValidUrl s = true := by
  simp only [autoParseFires, Bool.and_eq_true] at h
  exact h.2

/-- Witness for the amended C4 at a concrete valid URL. -/
theorem c4_witness :
    autoParseFires "http://example.com" false = true ∧
      isValidUrl "http://example.com" = true :=
  ⟨by decide, c4_auto_parse_validates_amended "http://example.com" false (by decide)⟩

/-- Claim C5 (counterexample): `request` does not reject "exactly when" the
status is non-2xx — a 200 response whose body is not valid JSON also rejects
(`response.json()` throws); and a present-but-empty `detail` falls back to
the generic message rather than being used. -/
theorem c5_counterexample :
    (200 ≤ (200 : ℕ) ∧ (200 : ℕ) ≤ 299) ∧
      isErr (request ⟨200, none⟩) = true ∧
      errMsg (request ⟨500, some ⟨some ""⟩⟩) = "Request failed: 500" := by decide

/-- Claim C5 (amended): `request` rejects iff the status is non-2xx or a 2xx
body fails to parse as JSON; for non-2xx responses the message is the body's
`detail` when the body parses and `detail` is a non-empty string, and
"Request failed: <status>" otherwise; the save form's catch leaves the draft
unchanged and shows an "Error" alert with the rejection message (or "Failed
to parse link" when empty). -/
theorem c5_request_amended (resp : HttpResponse) :
    (isErr (request resp) = true ↔
        (¬ (200 ≤ resp.status ∧ resp.status ≤ 299) ∨ resp.jsonBody = none)) ∧
      (∀ d : String, ¬ (200 ≤ resp.status ∧ resp.status ≤ 299) →
        resp.jsonBody = some ⟨some d⟩ → d ≠ "" →
        request resp = Except.error d) ∧
      (¬ (200 ≤ resp.status ∧ resp.status ≤ 299) →
        (resp.jsonBody = none ∨ resp.jsonBody = some ⟨none⟩ ∨
          resp.jsonBody = some ⟨some ""⟩) →
        request resp = Except.error ("Request failed: " ++ natToStr resp.status)) ∧
      (∀ (link : String) (prev : SaveCreate) (msg : String),
        (handleParseLink link prev (Except.error msg)).1 = prev ∧
          (handleParseLink link prev (Except.error msg)).2
            = some ("Error", if msg = "" then "Failed to parse link" else msg)) := by
  obtain ⟨st, body⟩ := resp
  refine ⟨?_, ?_, ?_, ?_⟩
  · by_cases hok : 200 ≤ st ∧ st ≤ 299
    · rcases body with _ | ⟨_ | d⟩ <;> simp [request, isErr, hok]
    · rcases body with _ | ⟨_ | d⟩ <;> simp [request, isErr, hok]
      split_ifs <;> simp_all [isErr]
  · intro d hok hb hd
    obtain rfl : body = some ⟨some d⟩ := hb
    simp [request, hok, hd]
  · intro hok hb
    rcases hb with rfl | rfl | rfl <;> simp [request, hok]
  · intro link prev msg
    constructor
    · rfl
    · rfl

/-- Witness for the amended C5: a 404 with a `detail` body rejects with that
detail, and the save form's catch leaves a concrete draft unchanged. -/
theorem c5_witness :
    request ⟨404, some ⟨some "Not found"⟩⟩ = Except.error "Not found" ∧
      (handleParseLink "http://example.com"
          ⟨"", some "", some SaveCategory.other, some "", none, none, none,
            none, none, none, none⟩
          (Except.error "Not found")).1
        = ⟨"", some "", some SaveCategory.other, some "", none, none, none,
            none, none, none, none⟩ := by
  have h := c5_request_amended ⟨404, some ⟨some "Not found"⟩⟩
  exact ⟨h.2.1 "Not found" (by decide) rfl (by decide),
    (h.2.2.2 "http://example.com"
      ⟨"", some "", some SaveCategory.other, some "", none, none, none,
        none, none, none, none⟩ "Not found").1⟩

/-- Claim C6 (counterexample): a sub-500ms typing burst does NOT always yield
exactly one extraction call — when the final text is not a valid URL the
guard fails and zero calls are issued. -/
theorem c6_counterexample :
    gapsOk [⟨0, "h"⟩, ⟨100, "ht"⟩] = true ∧
      debounceCalls [⟨0, "h"⟩, ⟨100, "ht"⟩] = [] := by decide

/-- Helper: one-step unfolding of `gapsOk` on a list with two visible
heads. -/
theorem gapsOk_cons_cons (a b : Edit) (l : List Edit) :
    gapsOk (a :: b :: l)
      = (decide (a.t < b.t) && decide (b.t < a.t + 500) && gapsOk (b :: l)) :=
  rfl

/-- Helper: one-step unfolding of `debounceCalls` on a list with two visible
heads. -/
theorem debounceCalls_cons_cons (a b : Edit) (l : List Edit) :
    debounceCalls (a :: b :: l)
      = (if decide (a.t + 500 < b.t) && parseGuard a.value false
          then [a.t + 500] else []) ++ debounceCalls (b :: l) :=
  rfl

/-- Claim C6 (amended): for every typing burst whose keystrokes are strictly
increasing and each under 500ms apart, at most one extraction call is issued;
it fires exactly 500ms after the last keystroke, and only when the final text
passes the guard (non-empty, not yet parsed, syntactically valid URL) —
otherwise no call is issued. -/
theorem c6_debounce_amended (es : List Edit) (e : Edit)
    (h : gapsOk (es ++ [e]) = true) :
    debounceCalls (es ++ [e])
      = if parseGuard e.value false then [e.t + 500] else [] := by
  induction es with
  | nil => rfl
  | cons a as ih =>
    rw [List.cons_append] at h ⊢
    cases hcons : as ++ [e] with
    | nil => simp at hcons
    | cons b l =>
      rw [hcons] at h
      rw [gapsOk_cons_cons] at h
      simp only [Bool.and_eq_true, decide_eq_true_eq] at h
      obtain ⟨⟨h1, h2⟩, h3⟩ := h
      have hlt : decide (a.t + 500 < b.t) = false := by
        simp [Nat.not_lt.mpr (Nat.le_of_lt h2)]
      rw [debounceCalls_cons_cons, hlt]
      simp only [Bool.false_and, Bool.false_eq_true, if_false, List.nil_append]
      rw [← hcons]
      exact ih (by rw [hcons]; exact h3)

/-- Witness for the amended C6: a two-keystroke burst ending in a valid URL
issues exactly one call, 500ms after the last keystroke. -/
theorem c6_witness :
    debounceCalls ([⟨0, "x"⟩] ++ [⟨100, "http://example.com"⟩]) = [600] := by
  rw [c6_debounce_amended [⟨0, "x"⟩] ⟨100, "http://example.com"⟩ (by decide)]
  decide

/-- Claim C7 (counterexample): the save form's `handleParseLink` performs no
`isParsing` check — invoked while a parse is outstanding it still issues a
request, contradicting "invoking the parse action returns immediately
without issuing a new request". -/
theorem c7_counterexample :
    savesHandleParseLinkIssues true "http://example.com" none = true := by decide

/-- Claim C7 (amended): in the idea form `parseLink` returns early (no
request) while `isParsing` is true; in the save form only the manual Parse
Link button is disabled while `isParsing` — `handleParseLink` itself behaves
identically whether or not a parse is outstanding. -/
theorem c7_single_flight_amended (s l : String) (u : Option String) :
    ideaParseLinkIssues s true = false ∧
      savesParseButtonDisabled l true = true ∧
      savesHandleParseLinkIssues true l u = savesHandleParseLinkIssues false l u := by
  refine ⟨?_, ?_, rfl⟩
  · simp [ideaParseLinkIssues]
  · simp [savesParseButtonDisabled]
